import Mathlib

/-!
Verification of the multi-provider AI service gateway of an agent-builder
backend (FastAPI + three AI providers: openai, groq, gemini).

The embedding below models, faithfully to the Python source:
  * `save_wave_file` (src/ai_service.py lines 14-20) — the Audio Container
    Writer, modelled as producing the WAV container record that the Python
    `wave` module writes (channel count, sample width, frame rate, PCM data);
  * `AIServiceFactory` (src/ai_service.py lines 22-147) — provider selection
    at construction, the `active_model_name` accessor, and the three
    capability methods.  Network-bound calls are modelled by the request
    value the adapter constructs (the provider's answer is external input),
    and file-system reads are modelled by a `String → List Nat` byte oracle;
  * the conversation orchestrator endpoints `send_text_message` and
    `send_voice_message` (src/routers/chat.py lines 51-143), modelled as
    functions from a committed-message store and provider-call outcomes
    (oracles, one `Except` per provider call the turn makes) to an event
    trace, the final store, and the HTTP response.
-/

/-- One entry of the chat history handed to the gateway: a Python dict
with `role` and `content` keys (src/routers/chat.py line 47). -/
structure ChatMessage where
  role : String
  content : String
deriving DecidableEq, Repr

/-- A `types.Part` of the gemini SDK holding text
(`types.Part.from_text(text=...)`, src/ai_service.py line 47). -/
structure GeminiPart where
  text : String
deriving DecidableEq, Repr

/-- A `types.Content` of the gemini SDK: a structured turn with a role label
and a list of parts (src/ai_service.py line 47). -/
structure GeminiContent where
  role : String
  parts : List GeminiPart
deriving DecidableEq, Repr

/-- One item of the `contents` list sent to gemini.  The source builds
`gemini_history + [new_message]` (line 52), a heterogeneous Python list
mixing `types.Content` values and the raw string `new_message`. -/
inductive GeminiContentItem where
  | content (c : GeminiContent)
  | text (s : String)
deriving DecidableEq, Repr

/-- The outgoing chat-completion request a provider adapter constructs:
either the flat message-list convention (openai, groq; lines 57-67) or the
structured-turn convention of gemini, whose system prompt travels in the
request config as `system_instruction`, outside the `contents` list
(lines 49-54). -/
inductive ChatRequest where
  | flat (provider : String) (model : String) (messages : List ChatMessage)
  | structured (model : String) (contents : List GeminiContentItem)
      (system_instruction : String)
deriving DecidableEq, Repr

/-- `AIServiceFactory.generate_chat_response` (src/ai_service.py lines
41-70), modelled as the request the selected adapter would send.
`Except.error` is the `raise ValueError(f"Unsupported AI Provider: ...")`
of line 70: no request is constructed and no provider call is attempted. -/
def generate_chat_response (provider : String) (system_prompt : String)
    (chat_history : List ChatMessage) (new_message : String) :
    Except String ChatRequest :=
  if provider = "gemini" then
    let gemini_history := chat_history.map (fun msg =>
      GeminiContentItem.content
        ⟨if msg.role = "user" then "user" else "model", [⟨msg.content⟩]⟩)
    .ok (ChatRequest.structured "gemini-2.5-flash"
      (gemini_history ++ [GeminiContentItem.text new_message]) system_prompt)
  else
    let messages := [ChatMessage.mk "system" system_prompt] ++ chat_history
      ++ [ChatMessage.mk "user" new_message]
    if provider = "openai" then
      .ok (ChatRequest.flat "openai" "gpt-4o-mini" messages)
    else if provider = "groq" then
      .ok (ChatRequest.flat "groq" "llama-3.3-70b-versatile" messages)
    else
      .error ("Unsupported AI Provider: " ++ provider)

/-- `AIServiceFactory.active_model_name` (src/ai_service.py lines 30-39). -/
def active_model_name (provider : String) : String :=
  if provider = "gemini" then "gemini-2.5-flash"
  else if provider = "groq" then "llama-3.3-70b-versatile"
  else if provider = "openai" then "gpt-4o-mini"
  else "unknown"

/-- Python `str.lower()`, modelled character by character; this agrees with
CPython on the ASCII provider identifiers at issue here. -/
def lower (s : String) : String :=
  String.mk (s.data.map Char.toLower)

/-- `AIServiceFactory.__init__` line 24:
`os.getenv("ACTIVE_AI_PROVIDER", "openai").lower()`.  The environment
variable is `none` when unset. -/
def init_provider (env : Option String) : String :=
  lower (env.getD "openai")

/-- How the audio is handed to a provider's speech-to-text endpoint: either
bytes read fully into memory first (gemini line 78, groq line 94), or the
open file object itself, which the openai branch passes without reading it
(line 105: `file=file`). -/
inductive AudioPayload where
  | inMemoryBytes (data : List Nat)
  | fileHandle (path : String)
deriving DecidableEq, Repr

/-- The speech-to-text request a provider adapter constructs
(src/ai_service.py lines 72-107). `filename` is the first slot of groq's
`("audio.webm", bytes)` tuple (line 94); `mimeType` is gemini's
`mime_type='audio/webm'` (line 84); `prompt` is gemini's instruction
string (line 83). -/
structure SttRequest where
  provider : String
  model : String
  payload : AudioPayload
  filename : Option String
  mimeType : Option String
  prompt : Option String
deriving DecidableEq, Repr

/-- `AIServiceFactory.transcribe_audio` (src/ai_service.py lines 72-107),
modelled as the request the selected adapter would send.  `file_bytes` is
the byte-for-byte contents of the file system, so
`file_bytes file_path` is what `open(file_path, "rb").read()` returns.
The function has no `else` branch: an unrecognized provider falls through
every `if`/`elif` and the Python function returns `None`, modelled as
`none`. -/
def transcribe_audio (provider : String) (file_bytes : String → List Nat)
    (file_path : String) : Option SttRequest :=
  if provider = "gemini" then
    some ⟨"gemini", "gemini-2.5-flash",
      AudioPayload.inMemoryBytes (file_bytes file_path), none,
      some "audio/webm", some "Generate an exact transcript of this audio."⟩
  else if provider = "groq" then
    some ⟨"groq", "whisper-large-v3-turbo",
      AudioPayload.inMemoryBytes (file_bytes file_path),
      some "audio.webm", none, none⟩
  else if provider = "openai" then
    some ⟨"openai", "gpt-4o-transcribe", AudioPayload.fileHandle file_path,
      none, none, none⟩
  else
    none

/-- The WAV container the Python `wave` module writes: header fields and the
raw PCM data.  `wave.Wave_write.writeframes` sets the reported frame count
to `len(data) // (nchannels * sampwidth)`. -/
structure WavFile where
  nchannels : Nat
  sampwidth : Nat
  framerate : Nat
  data : List Nat
deriving DecidableEq, Repr

/-- The frame count the produced WAV file reports. -/
def WavFile.frameCount (w : WavFile) : Nat :=
  w.data.length / (w.nchannels * w.sampwidth)

/-- Playback duration in seconds: reported frame count over frame rate. -/
def WavFile.duration (w : WavFile) : ℚ :=
  (w.frameCount : ℚ) / (w.framerate : ℚ)

/-- `save_wave_file` (src/ai_service.py lines 14-20): wraps raw PCM bytes
into a WAV container with the given channel count, frame rate and sample
width; the Python defaults are `channels=1, rate=24000, sample_width=2`. -/
def save_wave_file (pcm : List Nat) (channels : Nat := 1)
    (rate : Nat := 24000) (sample_width : Nat := 2) : WavFile :=
  ⟨channels, sample_width, rate, pcm⟩

/-- The side effect a `text_to_speech` branch performs before the final
`return output_path` (src/ai_service.py lines 109-147): gemini extracts the
PCM buffer from the response and writes a WAV file at the output path via
`save_wave_file` (lines 125-126); groq and openai stream the provider's
binary response to the output path (`stream_to_file`, lines 137 and 145);
an unrecognized provider matches no branch and performs nothing. -/
inductive TtsAction where
  | writeWav (path : String) (file : WavFile)
  | streamToFile (provider : String) (model : String) (voice : String)
      (input : String) (response_format : Option String) (path : String)
  | noAction
deriving DecidableEq, Repr

/-- Outcome of `text_to_speech`: the side effect performed and the value
returned. -/
structure TtsResult where
  action : TtsAction
  returned : String
deriving DecidableEq, Repr

/-- `AIServiceFactory.text_to_speech` (src/ai_service.py lines 109-147).
`pcm_data` stands for the sample buffer gemini's response carries
(`response.candidates[0].content.parts[0].inline_data.data`, line 125),
which is external input.  Every path reaches `return output_path`
(line 147). -/
def text_to_speech (provider : String) (pcm_data : List Nat)
    (text : String) (output_path : String) : TtsResult :=
  let action :=
    if provider = "gemini" then
      TtsAction.writeWav output_path (save_wave_file pcm_data)
    else if provider = "groq" then
      TtsAction.streamToFile "groq" "playai-tts" "Fritz-PlayAI" text
        (some "wav") output_path
    else if provider = "openai" then
      TtsAction.streamToFile "openai" "gpt-4o-mini-tts" "coral" text
        none output_path
    else
      TtsAction.noAction
  ⟨action, output_path⟩

/-- A persisted `Message` row (src/models.py lines 45-63), restricted to the
fields the orchestrator writes per turn. -/
structure Message where
  role : String
  content : String
  audio_file_path : Option String
deriving DecidableEq, Repr

/-- `fetch_formatted_history` (src/routers/chat.py lines 40-47): the
session's messages ordered by creation time — here, the store in commit
order — formatted as role/content dicts for the AI provider. -/
def fetch_formatted_history (store : List Message) : List ChatMessage :=
  store.map (fun msg => ⟨msg.role, msg.content⟩)

/-- An observable step of one conversation turn, in the order the endpoint
performs it: a database commit of one message, a provider call (chat
generation with its exact arguments, speech-to-text, text-to-speech), the
upload write of the user's audio file, or the `HTTPException` abort. -/
inductive Event where
  | commitMsg (msg : Message)
  | llmCall (system_prompt : String) (chat_history : List ChatMessage)
      (new_message : String)
  | saveUpload (path : String)
  | sttCall (path : String)
  | ttsCall (text : String) (path : String)
  | abort (detail : String)
deriving DecidableEq, Repr

/-- Outcome of one endpoint invocation: the event trace in execution order,
the final committed store, and the HTTP response (`Except.error` is the
`HTTPException` detail string). -/
structure TurnOutcome where
  trace : List Event
  store : List Message
  response : Except String Message
deriving Repr

/-- `send_text_message` (src/routers/chat.py lines 51-87).  `store` is the
session's committed messages in creation order; `llm` is the outcome of the
one `generate_chat_response` provider call the turn makes (the reply text,
or the exception message).  The user message is committed (line 63) before
the provider call (line 70); the history passed is
`chat_history[:-1]` — everything committed except the just-added user
message (line 72); on provider failure the endpoint raises
`HTTPException(500, f"AI Error: ...")` (line 76) with nothing further
committed; on success the assistant message is committed and returned
(lines 79-87). -/
def send_text_message (store : List Message) (agent_prompt : String)
    (content : String) (llm : Except String String) : TurnOutcome :=
  let user_msg : Message := ⟨"user", content, none⟩
  let store1 := store ++ [user_msg]
  let chat_history := fetch_formatted_history store1
  let callEv := Event.llmCall agent_prompt chat_history.dropLast content
  match llm with
  | .error e =>
      ⟨[Event.commitMsg user_msg, callEv, Event.abort ("AI Error: " ++ e)],
        store1, .error ("AI Error: " ++ e)⟩
  | .ok ai_text =>
      let ai_msg : Message := ⟨"assistant", ai_text, none⟩
      ⟨[Event.commitMsg user_msg, callEv, Event.commitMsg ai_msg],
        store1 ++ [ai_msg], .ok ai_msg⟩

/-- `send_voice_message` (src/routers/chat.py lines 90-143).  The uploaded
audio is saved (lines 100-103), transcribed (line 107, abort with
`"Transcription Error: ..."` on failure), the user message with the audio
path is committed (lines 112-114), the chat-generation call is made with
`chat_history[:-1]` (lines 117-123, abort with `"AI LLM Error: ..."` on
failure, the committed user message left in place), text-to-speech runs
(line 130, abort with `"TTS Error: ..."` on failure), and only then is the
assistant message committed and returned (lines 135-143).  `stt`, `llm`,
`tts` are the outcomes of the three provider calls. -/
def send_voice_message (store : List Message) (agent_prompt : String)
    (user_audio_path : String) (ai_audio_path : String)
    (stt : Except String String) (llm : Except String String)
    (tts : Except String Unit) : TurnOutcome :=
  match stt with
  | .error e =>
      ⟨[Event.saveUpload user_audio_path, Event.sttCall user_audio_path,
          Event.abort ("Transcription Error: " ++ e)],
        store, .error ("Transcription Error: " ++ e)⟩
  | .ok user_text =>
      let user_msg : Message := ⟨"user", user_text, some user_audio_path⟩
      let store1 := store ++ [user_msg]
      let chat_history := fetch_formatted_history store1
      let callEv := Event.llmCall agent_prompt chat_history.dropLast user_text
      match llm with
      | .error e =>
          ⟨[Event.saveUpload user_audio_path, Event.sttCall user_audio_path,
              Event.commitMsg user_msg, callEv,
              Event.abort ("AI LLM Error: " ++ e)],
            store1, .error ("AI LLM Error: " ++ e)⟩
      | .ok ai_text =>
          match tts with
          | .error e =>
              ⟨[Event.saveUpload user_audio_path,
                  Event.sttCall user_audio_path, Event.commitMsg user_msg,
                  callEv, Event.ttsCall ai_text ai_audio_path,
                  Event.abort ("TTS Error: " ++ e)],
                store1, .error ("TTS Error: " ++ e)⟩
          | .ok _ =>
              let ai_msg : Message :=
                ⟨"assistant", ai_text, some ai_audio_path⟩
              ⟨[Event.saveUpload user_audio_path,
                  Event.sttCall user_audio_path, Event.commitMsg user_msg,
                  callEv, Event.ttsCall ai_text ai_audio_path,
                  Event.commitMsg ai_msg],
                store1 ++ [ai_msg], .ok ai_msg⟩

/-- A fixed byte oracle (every file holds the three bytes 0, 1, 2), used to
evaluate the transcription adapters at a concrete input. -/
def const_bytes : String → List Nat := fun _ => [0, 1, 2]

/-- Committing one more message and then formatting all but the last
committed message yields exactly the previously committed history: this is
the `chat_history[:-1]` idiom of src/routers/chat.py lines 72 and 121. -/
theorem fetch_formatted_history_dropLast (store : List Message)
    (msg : Message) :
    (fetch_formatted_history (store ++ [msg])).dropLast =
      fetch_formatted_history store := by
  simp [fetch_formatted_history]

/-- Claim C1: for the flat message-list providers (openai and groq),
`generate_chat_response` sends one system-role message carrying the system
prompt first, then the history in its original order, then the new message
as a user-role message last; in particular for history
`[(user, a), (assistant, b)]` and new message `c`, the request holds `a`
before `b` before `c` in role-correct positions. -/
theorem c1_flat_request_order (sp nm : String) (hist : List ChatMessage) :
    generate_chat_response "openai" sp hist nm =
      .ok (ChatRequest.flat "openai" "gpt-4o-mini"
        ([⟨"system", sp⟩] ++ hist ++ [⟨"user", nm⟩])) ∧
    generate_chat_response "groq" sp hist nm =
      .ok (ChatRequest.flat "groq" "llama-3.3-70b-versatile"
        ([⟨"system", sp⟩] ++ hist ++ [⟨"user", nm⟩])) ∧
    generate_chat_response "openai" sp
        [⟨"user", "a"⟩, ⟨"assistant", "b"⟩] "c" =
      .ok (ChatRequest.flat "openai" "gpt-4o-mini"
        [⟨"system", sp⟩, ⟨"user", "a"⟩, ⟨"assistant", "b"⟩,
          ⟨"user", "c"⟩]) ∧
    generate_chat_response "groq" sp
        [⟨"user", "a"⟩, ⟨"assistant", "b"⟩] "c" =
      .ok (ChatRequest.flat "groq" "llama-3.3-70b-versatile"
        [⟨"system", sp⟩, ⟨"user", "a"⟩, ⟨"assistant", "b"⟩,
          ⟨"user", "c"⟩]) :=
  ⟨rfl, rfl, rfl, rfl⟩

/-- Claim C2: for the structured-turn provider (gemini),
`generate_chat_response` maps each history entry's role through
`"user" ↦ "user"` and everything else (in particular `"assistant"`) to
`"model"`, wraps each entry's content in a one-part content structure, and
carries the system prompt in the request config's system-instruction slot,
never as a turn of the contents list — the contents are exactly the mapped
history followed by the new message. -/
theorem c2_structured_request_gemini (sp nm : String)
    (hist : List ChatMessage) :
    generate_chat_response "gemini" sp hist nm =
      .ok (ChatRequest.structured "gemini-2.5-flash"
        (hist.map (fun msg => GeminiContentItem.content
            ⟨if msg.role = "user" then "user" else "model",
              [⟨msg.content⟩]⟩)
          ++ [GeminiContentItem.text nm]) sp) ∧
    generate_chat_response "gemini" sp
        [⟨"user", "a"⟩, ⟨"assistant", "b"⟩] nm =
      .ok (ChatRequest.structured "gemini-2.5-flash"
        [GeminiContentItem.content ⟨"user", [⟨"a"⟩]⟩,
          GeminiContentItem.content ⟨"model", [⟨"b"⟩]⟩,
          GeminiContentItem.text nm] sp) :=
  ⟨rfl, rfl⟩

/-- Claim C3: on both orchestrator endpoints the inbound user message is
committed before the chat-generation provider call (it appears in the trace
as a commit event strictly before the call event), the outbound assistant
message is committed only after that call returns successfully, and when
the call fails the turn aborts with an error, the committed inbound message
stays in the store, and no outbound message is recorded.  Stated as exact
trace/store/response equalities for every outcome of the provider calls. -/
theorem c3_turn_commit_ordering (store : List Message)
    (p c uap aap e r t : String) :
    send_text_message store p c (.ok r) =
      ⟨[Event.commitMsg ⟨"user", c, none⟩,
          Event.llmCall p (fetch_formatted_history store) c,
          Event.commitMsg ⟨"assistant", r, none⟩],
        store ++ [⟨"user", c, none⟩, ⟨"assistant", r, none⟩],
        .ok ⟨"assistant", r, none⟩⟩ ∧
    send_text_message store p c (.error e) =
      ⟨[Event.commitMsg ⟨"user", c, none⟩,
          Event.llmCall p (fetch_formatted_history store) c,
          Event.abort ("AI Error: " ++ e)],
        store ++ [⟨"user", c, none⟩], .error ("AI Error: " ++ e)⟩ ∧
    send_voice_message store p uap aap (.ok t) (.ok r) (.ok ()) =
      ⟨[Event.saveUpload uap, Event.sttCall uap,
          Event.commitMsg ⟨"user", t, some uap⟩,
          Event.llmCall p (fetch_formatted_history store) t,
          Event.ttsCall r aap,
          Event.commitMsg ⟨"assistant", r, some aap⟩],
        store ++ [⟨"user", t, some uap⟩, ⟨"assistant", r, some aap⟩],
        .ok ⟨"assistant", r, some aap⟩⟩ ∧
    send_voice_message store p uap aap (.ok t) (.error e) (.ok ()) =
      ⟨[Event.saveUpload uap, Event.sttCall uap,
          Event.commitMsg ⟨"user", t, some uap⟩,
          Event.llmCall p (fetch_formatted_history store) t,
          Event.abort ("AI LLM Error: " ++ e)],
        store ++ [⟨"user", t, some uap⟩],
        .error ("AI LLM Error: " ++ e)⟩ ∧
    send_voice_message store p uap aap (.ok t) (.ok r) (.error e) =
      ⟨[Event.saveUpload uap, Event.sttCall uap,
          Event.commitMsg ⟨"user", t, some uap⟩,
          Event.llmCall p (fetch_formatted_history store) t,
          Event.ttsCall r aap, Event.abort ("TTS Error: " ++ e)],
        store ++ [⟨"user", t, some uap⟩],
        .error ("TTS Error: " ++ e)⟩ := by
  refine ⟨?_, ?_, ?_, ?_, ?_⟩ <;>
    simp [send_text_message, send_voice_message, fetch_formatted_history]

/-- Claim C4 counterexample: with `ACTIVE_AI_PROVIDER` unset, construction
defaults the selection to `"openai"` (src/ai_service.py line 24), so
`active_model_name` returns `"gpt-4o-mini"` — not `"unknown"` as the claim
states for an unset selection. -/
theorem c4_counterexample :
    active_model_name (init_provider none) = "gpt-4o-mini" ∧
    active_model_name (init_provider none) ≠ "unknown" := by
  constructor <;> decide

/-- Claim C4 (amended): `active_model_name` returns exactly
`"gpt-4o-mini"` for openai, `"llama-3.3-70b-versatile"` for groq,
`"gemini-2.5-flash"` for gemini, and `"unknown"` for any other stored
selection; an unset selection however defaults to `"openai"` at
construction, so the accessor then returns `"gpt-4o-mini"`. -/
theorem c4_active_model_name_amended (s : String)
    (h1 : s ≠ "openai") (h2 : s ≠ "groq") (h3 : s ≠ "gemini") :
    active_model_name "openai" = "gpt-4o-mini" ∧
    active_model_name "groq" = "llama-3.3-70b-versatile" ∧
    active_model_name "gemini" = "gemini-2.5-flash" ∧
    active_model_name s = "unknown" ∧
    init_provider none = "openai" := by
  refine ⟨rfl, rfl, rfl, ?_, by decide⟩
  simp [active_model_name, h1, h2, h3]

/-- Witness for the amended C4 at the concrete selection `"cohere"`. -/
theorem c4_active_model_name_amended_witness :
    active_model_name "cohere" = "unknown" ∧
    init_provider none = "openai" := by
  have h := c4_active_model_name_amended "cohere" (by decide) (by decide)
    (by decide)
  exact ⟨h.2.2.2.1, h.2.2.2.2⟩

/-- Claim C5: `generate_chat_response` with a provider identifier outside
the three supported ones returns the unsupported-provider configuration
error immediately — no request value is constructed, hence no provider call
is attempted — for every system prompt, history and new message. -/
theorem c5_unsupported_provider_error (provider sp nm : String)
    (hist : List ChatMessage)
    (h1 : provider ≠ "openai") (h2 : provider ≠ "groq")
    (h3 : provider ≠ "gemini") :
    generate_chat_response provider sp hist nm =
      .error ("Unsupported AI Provider: " ++ provider) := by
  simp [generate_chat_response, h1, h2, h3]

/-- Witness for C5 at the concrete provider identifier `"claude"`. -/
theorem c5_unsupported_provider_error_witness :
    generate_chat_response "claude" "s" [] "m" =
      .error ("Unsupported AI Provider: " ++ "claude") :=
  c5_unsupported_provider_error "claude" "s" "m" [] (by decide) (by decide)
    (by decide)

/-- Claim C6 counterexample: the openai branch of `transcribe_audio`
(src/ai_service.py lines 101-107) passes the open file object directly
(`file=file`) — the adapter itself neither reads the bytes into memory nor
tags them as WebM (no filename, no MIME type), refuting the claim that all
three providers read the whole file into memory with a WebM tag. -/
theorem c6_counterexample :
    (transcribe_audio "openai" const_bytes "voice.webm").map
        SttRequest.payload =
      some (AudioPayload.fileHandle "voice.webm") ∧
    (transcribe_audio "openai" const_bytes "voice.webm").map
        SttRequest.payload ≠
      some (AudioPayload.inMemoryBytes (const_bytes "voice.webm")) ∧
    (transcribe_audio "openai" const_bytes "voice.webm").map
        SttRequest.mimeType ≠ some (some "audio/webm") ∧
    (transcribe_audio "openai" const_bytes "voice.webm").map
        SttRequest.filename ≠ some (some "audio.webm") := by
  refine ⟨rfl, by decide, by decide, by decide⟩

/-- Claim C6 (amended): the gemini and groq branches of `transcribe_audio`
read the entire audio file into memory before the provider call — gemini
tags the bytes with MIME type `audio/webm`, groq labels them with the
filename `audio.webm` as its format-detection workaround — while the openai
branch hands the open file object to the client library directly, without
reading it into memory in the adapter and without any WebM label. -/
theorem c6_transcribe_request_amended (fb : String → List Nat)
    (path : String) :
    transcribe_audio "gemini" fb path =
      some ⟨"gemini", "gemini-2.5-flash",
        AudioPayload.inMemoryBytes (fb path), none, some "audio/webm",
        some "Generate an exact transcript of this audio."⟩ ∧
    transcribe_audio "groq" fb path =
      some ⟨"groq", "whisper-large-v3-turbo",
        AudioPayload.inMemoryBytes (fb path), some "audio.webm", none,
        none⟩ ∧
    transcribe_audio "openai" fb path =
      some ⟨"openai", "gpt-4o-transcribe", AudioPayload.fileHandle path,
        none, none, none⟩ :=
  ⟨rfl, rfl, rfl⟩

/-- Claim C7: for each of the three recognized providers, `text_to_speech`
writes the synthesized audio to `output_path` (gemini via the WAV container
writer, groq and openai by streaming the provider response to the path) and
returns `output_path` unchanged. -/
theorem c7_tts_returns_output_path (pcm : List Nat)
    (text output_path : String) :
    text_to_speech "gemini" pcm text output_path =
      ⟨TtsAction.writeWav output_path (save_wave_file pcm), output_path⟩ ∧
    text_to_speech "groq" pcm text output_path =
      ⟨TtsAction.streamToFile "groq" "playai-tts" "Fritz-PlayAI" text
        (some "wav") output_path, output_path⟩ ∧
    text_to_speech "openai" pcm text output_path =
      ⟨TtsAction.streamToFile "openai" "gpt-4o-mini-tts" "coral" text
        none output_path, output_path⟩ :=
  ⟨rfl, rfl, rfl⟩

/-- Claim C8: with its defaults, the Audio Container Writer produces a WAV
file with exactly one channel, 2-byte samples and a 24000 Hz frame rate,
whose reported frame count for a PCM buffer of length `L` is
`L / (channels × sample_width) = L / (1 × 2)` and whose playback duration
is that frame count over the frame rate. -/
theorem c8_wave_writer_defaults (pcm : List Nat) :
    (save_wave_file pcm).nchannels = 1 ∧
    (save_wave_file pcm).sampwidth = 2 ∧
    (save_wave_file pcm).framerate = 24000 ∧
    (save_wave_file pcm).frameCount = pcm.length / (1 * 2) ∧
    (save_wave_file pcm).duration =
      ((save_wave_file pcm).frameCount : ℚ) / (24000 : ℚ) := by
  refine ⟨rfl, rfl, rfl, rfl, ?_⟩
  simp [save_wave_file, WavFile.duration]

/-- Claim C9: for all three providers an empty history is valid input:
the constructed request carries only the system prompt (in each provider's
system channel) and the new message, and `generate_chat_response` succeeds
(returns a request, not the unsupported-provider error). -/
theorem c9_empty_history (sp nm : String) :
    generate_chat_response "openai" sp [] nm =
      .ok (ChatRequest.flat "openai" "gpt-4o-mini"
        [⟨"system", sp⟩, ⟨"user", nm⟩]) ∧
    generate_chat_response "groq" sp [] nm =
      .ok (ChatRequest.flat "groq" "llama-3.3-70b-versatile"
        [⟨"system", sp⟩, ⟨"user", nm⟩]) ∧
    generate_chat_response "gemini" sp [] nm =
      .ok (ChatRequest.structured "gemini-2.5-flash"
        [GeminiContentItem.text nm] sp) :=
  ⟨rfl, rfl, rfl⟩

/-- Claim C10: for any provider identifier outside the three supported
ones, `transcribe_audio` falls through every branch and returns `none`
(Python's implicit `None`) without raising, and `text_to_speech` performs
no synthesis action yet still returns `output_path` as if it had succeeded
— neither reports a configuration error. -/
theorem c10_unknown_provider_fallthrough (provider : String)
    (fb : String → List Nat) (path : String) (pcm : List Nat)
    (text out : String)
    (h1 : provider ≠ "openai") (h2 : provider ≠ "groq")
    (h3 : provider ≠ "gemini") :
    transcribe_audio provider fb path = none ∧
    text_to_speech provider pcm text out = ⟨TtsAction.noAction, out⟩ := by
  constructor <;> simp [transcribe_audio, text_to_speech, h1, h2, h3]

/-- Witness for C10 at the concrete provider identifier `"mistral"`. -/
theorem c10_unknown_provider_fallthrough_witness :
    transcribe_audio "mistral" const_bytes "a.webm" = none ∧
    text_to_speech "mistral" [] "hi" "out.mp3" =
      ⟨TtsAction.noAction, "out.mp3"⟩ :=
  c10_unknown_provider_fallthrough "mistral" const_bytes "a.webm" [] "hi"
    "out.mp3" (by decide) (by decide) (by decide)
